import Mathlib

/-!
Verification development for the eClass MCP server core
(`html_parsing.py`, `authentication.py`, `course_management.py`,
`server.py`).

HTML documents are modelled as a tree of element and text nodes
(`Html` / `HtmlList`), mirroring the parsed document BeautifulSoup
operates on.  The traversal helpers below (`findAllTagL`, `findFirstL`,
`selClassL`, `selDescL`, `textL`) model the BeautifulSoup operations the
source uses: `find_all(tag)`, `find(tag, attrs)`, `select('.cls')`,
`select('.outer .inner')`, `select('.outer tag')` and `.text`, all in
document (pre-)order.

Network interaction is modelled by oracles: each operation receives the
responses the HTTP layer would produce for its (fixed, sequential)
requests; `Except String _` distinguishes a delivered response from a
raised transport exception carrying a message.  A response body is kept
in two views, the raw text (`raw`, used by the source's substring
checks) and the parsed document (`doc`, used by the extractors).
Operations return the number of network requests they performed, so
"no network call" claims are statable.
-/

-- Parsed HTML node: an element with tag, attributes and children, or a
-- text node.
mutual
inductive Html where
  | elem : String → List (String × String) → HtmlList → Html
  | text : String → Html
  deriving DecidableEq
inductive HtmlList where
  | nil : HtmlList
  | cons : Html → HtmlList → HtmlList
  deriving DecidableEq
end

/-- Build an `HtmlList` from a plain list, for writing documents. -/
def hl : List Html → HtmlList
  | [] => .nil
  | x :: xs => .cons x (hl xs)

/-- Substring test on character lists (`needle` occurs in `hay`). -/
def listSub (n h : List Char) : Bool :=
  match h with
  | [] => n.isEmpty
  | _ :: t => (n.isPrefixOf h) || listSub n t

/-- Python's `needle in hay` on strings. -/
def containsSub (needle hay : String) : Bool := listSub needle.data hay.data

/-- Python's `str.lower()` (ASCII letters; sufficient for the ASCII
needles the source searches after lowering). -/
def lowerStr (s : String) : String := String.mk (s.data.map Char.toLower)

/-- Python's `s.startswith(pre)`. -/
def strStartsWith (s pre : String) : Bool := pre.data.isPrefixOf s.data

/-- Python's `s.strip()`: whitespace removed from both ends. -/
def strTrim (s : String) : String :=
  String.mk (((s.data.dropWhile Char.isWhitespace).reverse.dropWhile
    Char.isWhitespace).reverse)

/-- Split on whitespace (how a multi-valued `class` attribute is read). -/
def splitWsAux : List Char → List Char → List String
  | [], acc => [String.mk acc.reverse]
  | c :: rest, acc =>
      if c.isWhitespace then String.mk acc.reverse :: splitWsAux rest []
      else splitWsAux rest (c :: acc)

/-- Whitespace-separated tokens of a string. -/
def splitWs (s : String) : List String := splitWsAux s.data []

/-- Attributes of a node (a text node has none). -/
def attrsOf : Html → List (String × String)
  | .elem _ a _ => a
  | .text _ => []

/-- Children of a node. -/
def childrenOf : Html → HtmlList
  | .elem _ _ c => c
  | .text _ => .nil

/-- Does the node have the given tag? -/
def tagIs (t : String) (e : Html) : Bool :=
  match e with
  | .elem tg _ _ => tg = t
  | .text _ => false

/-- BeautifulSoup `node.get(key)`: first value bound to the attribute. -/
def getAttr (e : Html) (k : String) : Option String :=
  ((attrsOf e).find? (fun p => p.1 = k)).map (fun p => p.2)

/-- Does the element carry `c` among its whitespace-separated class
tokens? -/
def hasClass (c : String) (e : Html) : Bool :=
  match getAttr e "class" with
  | some s => (splitWs s).contains c
  | none => false

-- BeautifulSoup `.text`: concatenation of all descendant text nodes in
-- document order.
mutual
def textH : Html → String
  | .elem _ _ c => textL c
  | .text s => s
def textL : HtmlList → String
  | .nil => ""
  | .cons h t => textH h ++ textL t
end

-- `soup.find_all(t)`: every element with tag `t`, document order.
mutual
def findAllTagH (t : String) : Html → List Html
  | .text _ => []
  | .elem tg a c =>
      (if tg = t then [Html.elem tg a c] else []) ++ findAllTagL t c
def findAllTagL (t : String) : HtmlList → List Html
  | .nil => []
  | .cons h r => findAllTagH t h ++ findAllTagL t r
end

-- `soup.find(...)` with an arbitrary element predicate: first match in
-- document order.
mutual
def findFirstH (p : Html → Bool) : Html → Option Html
  | .text _ => none
  | .elem tg a c =>
      if p (Html.elem tg a c) then some (Html.elem tg a c)
      else findFirstL p c
def findFirstL (p : Html → Bool) : HtmlList → Option Html
  | .nil => none
  | .cons h r =>
      match findFirstH p h with
      | some x => some x
      | none => findFirstL p r
end

/-- Model of `soup.find(t, attrs)` with one required attribute: first
element with tag `t` whose attribute `k` equals `v`. -/
def findTagAttr (t k v : String) (doc : HtmlList) : Option Html :=
  findFirstL (fun e => tagIs t e && (getAttr e k == some v)) doc

/-- `soup.find(t)`: first element with tag `t`. -/
def findFirstTag (t : String) (doc : HtmlList) : Option Html :=
  findFirstL (tagIs t) doc

-- `soup.select('.c')`: every element with class `c`, document order.
mutual
def selClassH (c : String) : Html → List Html
  | .text _ => []
  | .elem tg a ch =>
      (if hasClass c (Html.elem tg a ch) then [Html.elem tg a ch] else []) ++
        selClassL c ch
def selClassL (c : String) : HtmlList → List Html
  | .nil => []
  | .cons h r => selClassH c h ++ selClassL c r
end

-- `soup.select('.outer X')` (descendant combinator): every element
-- satisfying `q` with a strict ancestor of class `outer`; `inO` records
-- whether such an ancestor encloses the current position.
mutual
def selDescH (outer : String) (q : Html → Bool) (inO : Bool) : Html → List Html
  | .text _ => []
  | .elem tg a ch =>
      (if inO && q (Html.elem tg a ch) then [Html.elem tg a ch] else []) ++
        selDescL outer q (inO || hasClass outer (Html.elem tg a ch)) ch
def selDescL (outer : String) (q : Html → Bool) (inO : Bool) : HtmlList → List Html
  | .nil => []
  | .cons h r => selDescH outer q inO h ++ selDescL outer q inO r
end

/-! ### `html_parsing.py` -/

/-- The SSO-button marker text searched by `extract_sso_link`. -/
def ssoMarker : String := "Είσοδος με λογαριασμό ΕΚΠΑ"

/-- `extract_sso_link`'s anchor test:
`'Είσοδος με λογαριασμό ΕΚΠΑ' in link.text or 'ΕΚΠΑ' in link.text`. -/
def anchorMatches (a : Html) : Bool :=
  containsSub ssoMarker (textH a) || containsSub "ΕΚΠΑ" (textH a)

/-- The anchor phase of `extract_sso_link`: the loop breaks at the first
anchor whose text matches; a missing or empty (falsy) `href` leaves
`sso_link` unset, so the form fallback runs. -/
def ssoFromAnchors (doc : HtmlList) : Option String :=
  match (findAllTagL "a" doc).find? anchorMatches with
  | some a =>
      match getAttr a "href" with
      | some h => if h = "" then none else some h
      | none => none
  | none => none

/-- The form fallback of `extract_sso_link`: first form whose `action`
is truthy and contains `cas.php`. -/
def ssoFromForms (doc : HtmlList) : Option String :=
  match (findAllTagL "form" doc).find? (fun f =>
      match getAttr f "action" with
      | some act => if act = "" then false else containsSub "cas.php" act
      | none => false) with
  | some f => getAttr f "action"
  | none => none

/-- `extract_sso_link`'s absolutization: keep a URL starting with
`http://` or `https://`, prefix `base_url` to a leading-slash path, and
`base_url + "/"` to anything else. -/
def resolveRel (base link : String) : String :=
  if strStartsWith link "http://" || strStartsWith link "https://" then link
  else if strStartsWith link "/" then base ++ link
  else base ++ "/" ++ link

/-- `html_parsing.extract_sso_link`. -/
def extract_sso_link (doc : HtmlList) (base : String) : Option String :=
  match ssoFromAnchors doc with
  | some h => some (resolveRel base h)
  | none =>
      match ssoFromForms doc with
      | some act => some (resolveRel base act)
      | none => none

/-- The error container probed by `extract_cas_form_data`:
`soup.find('div', \x7b'id': 'msg'\x7d)`, text stripped. -/
def msgText (doc : HtmlList) : Option String :=
  (findTagAttr "div" "id" "msg" doc).map (fun e => strTrim (textH e))

/-- Python's `a or b` on an optional string: `b` when `a` is `None` or
empty. -/
def orStr (o : Option String) (d : String) : String :=
  match o with
  | some s => if s = "" then d else s
  | none => d

/-- The form located by `extract_cas_form_data`:
`soup.find('form', \x7b'id': 'fm1'\x7d) or soup.find('form')`. -/
def casForm (doc : HtmlList) : Option Html :=
  match findTagAttr "form" "id" "fm1" doc with
  | some f => some f
  | none => findFirstTag "form" doc

/-- `extract_cas_form_data`'s action resolution: a falsy `action`
attribute falls back to `current_url`; a relative one is resolved
against the fixed CAS host `https://sso.uoa.gr`. -/
def resolveCasAction (action : Option String) (currentUrl : String) : String :=
  match action with
  | none => currentUrl
  | some a =>
      if a = "" then currentUrl
      else if strStartsWith a "http://" || strStartsWith a "https://" then a
      else if strStartsWith a "/" then "https://sso.uoa.gr" ++ a
      else "https://sso.uoa.gr/" ++ a

/-- `html_parsing.extract_cas_form_data`, returning
`(execution_value, form_action, error_message)`. -/
def extract_cas_form_data (doc : HtmlList) (currentUrl : String) :
    Option String × Option String × Option String :=
  let errorText := msgText doc
  match findTagAttr "input" "name" "execution" doc with
  | none =>
      (none, none, some (orStr errorText "Could not find execution parameter on SSO page"))
  | some inp =>
      match casForm doc with
      | none =>
          (getAttr inp "value", none,
            some (orStr errorText "Could not find login form on SSO page"))
      | some f =>
          (getAttr inp "value", some (resolveCasAction (getAttr f "action") currentUrl),
            errorText)

/-- `html_parsing.verify_login_success`. -/
def verify_login_success (html : String) : Bool :=
  containsSub "Μαθήματα" html ||
    containsSub "portfolio" (lowerStr html) ||
    containsSub "course" (lowerStr html)

/-- A course record `\x7bname, url\x7d`. -/
structure Course where
  name : String
  url : String
  deriving DecidableEq

/-- `href.lstrip('/')`. -/
def stripSlashes (s : String) : String :=
  String.mk (s.data.dropWhile (fun c => c = '/'))

/-- `extract_courses`'s URL normalization: keep an `http`-prefixed href,
otherwise `base_url + "/" + href.lstrip('/')`. -/
def normUrl (base href : String) : String :=
  if strStartsWith href "http" then href else base ++ "/" ++ stripSlashes href

/-- The four selector groups `extract_courses` tries, in order. -/
def courseGroup1 (doc : HtmlList) : List Html := selClassL "course-title" doc

/-- Second selector group of `extract_courses`. -/
def courseGroup2 (doc : HtmlList) : List Html := selClassL "lesson-title" doc

/-- Third selector group of `extract_courses` (`.course-box .title`). -/
def courseGroup3 (doc : HtmlList) : List Html :=
  selDescL "course-box" (hasClass "title") false doc

/-- Fourth selector group of `extract_courses` (`.course-info h4`). -/
def courseGroup4 (doc : HtmlList) : List Html :=
  selDescL "course-info" (tagIs "h4") false doc

/-- One iteration of the anchor-fallback loop of `extract_courses`:
`href = link.get('href', '')`; anchors whose href contains `courses` or
`course.php` yield a course, unless the stripped text is empty. -/
def fallbackCourse (base : String) (a : Html) : Option Course :=
  let href := orStr (getAttr a "href") ""
  if containsSub "courses" href || containsSub "course.php" href then
    let nm := strTrim (textH a)
    if nm = "" then none
    else some { name := nm, url := normUrl base href }
  else none

/-- The anchor fallback of `extract_courses` over all anchors. -/
def fallbackCourses (base : String) (l : List Html) : List Course :=
  l.filterMap (fallbackCourse base)

/-- One iteration of the selector branch of `extract_courses`:
`course_link = course_elem.find('a') or course_elem`; an element whose
link has a falsy href is skipped, the name is stripped but not checked
for emptiness. -/
def selCourse (base : String) (e : Html) : Option Course :=
  let cl :=
    match (findAllTagL "a" (childrenOf e)).head? with
    | some a => a
    | none => e
  match getAttr cl "href" with
  | some h =>
      if h = "" then none
      else some { name := strTrim (textH cl), url := normUrl base h }
  | none => none

/-- The selector branch of `extract_courses` over the matched group. -/
def selCourses (base : String) (l : List Html) : List Course :=
  l.filterMap (selCourse base)

/-- `html_parsing.extract_courses`. -/
def extract_courses (doc : HtmlList) (base : String) : List Course :=
  let es :=
    match courseGroup1 doc with
    | [] =>
        match courseGroup2 doc with
        | [] =>
            match courseGroup3 doc with
            | [] => courseGroup4 doc
            | g3 => g3
        | g2 => g2
    | g1 => g1
  match es with
  | [] => fallbackCourses base (findAllTagL "a" doc)
  | es => selCourses base es

/-! ### Session state (`server.py`) and network oracles -/

/-- `server.SessionState`: the mutable session record.  `cookieEpoch`
models the identity of the underlying `requests.Session` (cookie
context); `reset` replaces it with a fresh one. -/
structure SessionState where
  base_url : String
  logged_in : Bool
  username : Option String
  courses : List Course
  cookieEpoch : Nat
  deriving DecidableEq

/-- `SessionState.reset`: fresh cookie context, flags and caches
cleared. -/
def SessionState.reset (st : SessionState) : SessionState :=
  { st with
    logged_in := false
    username := none
    courses := []
    cookieEpoch := st.cookieEpoch + 1 }

/-- An HTTP response that was delivered without raising: its final URL
after redirects, its body as raw text (substring checks) and as a
parsed document (extractors). -/
structure Resp where
  url : String
  raw : String
  doc : HtmlList

/-- A redirect-disabled probe response, as `is_session_valid` reads it:
status code, `Location` header (with `headers.get('Location', '')`'s
empty default) and body text. -/
structure Probe where
  status : Nat
  location : String
  raw : String

/-! ### `server.SessionState.is_session_valid` -/

/-- Result of the validity check: the session state after the call, the
returned boolean, and how many network requests were made. -/
structure ValidResult where
  st : SessionState
  valid : Bool
  calls : Nat
  deriving DecidableEq

/-- `SessionState.is_session_valid`.  The oracle is the probe GET of the
portfolio URL; `none` models a raised exception (the bare `except`
catches everything). -/
def is_session_valid (st : SessionState) (r : Option Probe) : ValidResult :=
  if st.logged_in = false then ⟨st, false, 0⟩
  else
    match r with
    | none => ⟨{ st with logged_in := false }, false, 1⟩
    | some p =>
        if p.status = 302 && containsSub "login" p.location then
          ⟨{ st with logged_in := false }, false, 1⟩
        else if p.status = 200 && verify_login_success p.raw then
          ⟨st, true, 1⟩
        else
          ⟨{ st with logged_in := false }, false, 1⟩

/-! ### `authentication.py` -/

/-- The two post-submit failure markers of `attempt_login`. -/
def failureMarkerA : String := "Πόροι Πληροφορικής ΕΚΠΑ"

/-- The second post-submit failure marker of `attempt_login`. -/
def failureMarkerB : String :=
  "The credentials you provided cannot be determined to be authentic"

/-- The post-submit check of `attempt_login` (line 75): authentication
with CAS is treated as successful when neither failure marker occurs in
the response body. -/
def postSubmitCheck (raw : String) : Bool :=
  !(containsSub failureMarkerA raw) && !(containsSub failureMarkerB raw)

/-- The guard on the error text re-extracted from the CAS page:
`error_text and ('authenticate' in error_text.lower() or 'credentials'
in error_text.lower())`. -/
def errHasAuthWords (et : Option String) : Bool :=
  match et with
  | some t =>
      if t = "" then false
      else containsSub "authenticate" (lowerStr t) || containsSub "credentials" (lowerStr t)
  | none => false

/-- Python truthiness of an optional string (`not x`). -/
def optFalsy (o : Option String) : Bool :=
  match o with
  | some s => s = ""
  | none => true

/-- The network interactions of one `attempt_login` run, in request
order: GET of the login form, GET of the SSO link, POST of the
credentials, GET of the portfolio page.  `Except.error e` models a
raised `requests.RequestException` (including `raise_for_status`) with
message `e`. -/
structure LoginOracle where
  r1 : Except String Resp
  r2 : Except String Resp
  r3 : Except String Resp
  r4 : Except String Resp

/-- Result of `attempt_login`: session state after the call and the
returned `(success, error_message)` pair. -/
structure LoginResult where
  st : SessionState
  success : Bool
  message : Option String
  deriving DecidableEq

/-- Lines 74–100 of `authentication.py`: from the post-submit check to
the final portfolio verification.  Only here, after
`verify_login_success` holds on the portfolio page, is the session
mutated. -/
def afterPost (st : SessionState) (username : String) (resp3 : Resp)
    (r4 : Except String Resp) : LoginResult :=
  if postSubmitCheck resp3.raw then
    if containsSub "eclass.uoa.gr" resp3.url then
      match r4 with
      | .error e => ⟨st, false, some ("Network error during login process: " ++ e)⟩
      | .ok resp4 =>
          if verify_login_success resp4.raw then
            ⟨{ st with logged_in := true, username := some username }, true, none⟩
          else
            ⟨st, false, some "Could not access portfolio page after login"⟩
    else
      ⟨st, false, some ("Unexpected redirect after login: " ++ resp3.url)⟩
  else
    match (extract_cas_form_data resp3.doc resp3.url).2.2 with
    | some t =>
        if t = "" then ⟨st, false, some "Authentication failed: Invalid credentials"⟩
        else ⟨st, false, some ("Authentication error: " ++ t)⟩
    | none => ⟨st, false, some "Authentication failed: Invalid credentials"⟩

/-- The fixed field set POSTed to CAS by `attempt_login`. -/
def loginData (username password execution : String) : List (String × String) :=
  [("username", username), ("password", password), ("execution", execution),
    ("_eventId", "submit"), ("geolocation", "")]

/-- `authentication.attempt_login`.  The POSTed form body is
`loginData username password execution`; the oracle abstracts the
server's reaction to it. -/
def attempt_login (st : SessionState) (username password : String) (o : LoginOracle) :
    LoginResult :=
  match o.r1 with
  | .error e => ⟨st, false, some ("Network error during login process: " ++ e)⟩
  | .ok resp1 =>
      match extract_sso_link resp1.doc st.base_url with
      | none => ⟨st, false, some "Could not find SSO login link on the login page"⟩
      | some _ =>
          match o.r2 with
          | .error e => ⟨st, false, some ("Network error during login process: " ++ e)⟩
          | .ok resp2 =>
              if !(containsSub "sso.uoa.gr" resp2.url) then
                ⟨st, false, some ("Unexpected redirect to " ++ resp2.url)⟩
              else
                let ext := extract_cas_form_data resp2.doc resp2.url
                if errHasAuthWords ext.2.2 then
                  ⟨st, false, some ("Authentication error: " ++ (ext.2.2.getD ""))⟩
                else if optFalsy ext.1 then
                  ⟨st, false, some "Could not find execution parameter on SSO page"⟩
                else if optFalsy ext.2.1 then
                  ⟨st, false, some "Could not find login form on SSO page"⟩
                else
                  let _body := loginData username password (ext.1.getD "")
                  match o.r3 with
                  | .error e =>
                      ⟨st, false, some ("Network error during login process: " ++ e)⟩
                  | .ok resp3 => afterPost st username resp3 o.r4

/-! ### `authentication.perform_logout` -/

/-- Result of `perform_logout`: state, the `(success, username_or_error)`
pair, and the number of network requests. -/
structure LogoutResult where
  st : SessionState
  success : Bool
  value : Option String
  calls : Nat
  deriving DecidableEq

/-- `authentication.perform_logout`.  The oracle is the GET of the
logout URL; `Except.error e` models any raised exception. -/
def perform_logout (st : SessionState) (r : Except String Unit) : LogoutResult :=
  if st.logged_in = false then ⟨st, true, none, 0⟩
  else
    match r with
    | .error e => ⟨st, false, some ("Error during logout: " ++ e), 1⟩
    | .ok _ => ⟨st.reset, true, st.username, 1⟩

/-! ### `course_management.get_courses` -/

/-- The network interactions of one `get_courses` run: the validity
probe made by `is_session_valid`, then the GET of the portfolio page. -/
structure CoursesOracle where
  probe : Option Probe
  page : Except String Resp

/-- Result of `get_courses`: state, the returned
`(success, message, courses)` triple, and the number of network
requests. -/
structure CoursesResult where
  st : SessionState
  success : Bool
  message : Option String
  courses : Option (List Course)
  calls : Nat
  deriving DecidableEq

/-- `course_management.get_courses`. -/
def get_courses (st : SessionState) (o : CoursesOracle) : CoursesResult :=
  if st.logged_in = false then
    ⟨st, false, some "Not logged in. Please log in first using the login tool.", none, 0⟩
  else
    let v := is_session_valid st o.probe
    if v.valid = false then
      ⟨v.st, false, some "Session expired. Please log in again.", none, v.calls⟩
    else
      match o.page with
      | .error e =>
          ⟨v.st, false, some ("Network error retrieving courses: " ++ e), none, v.calls + 1⟩
      | .ok p =>
          let cs := extract_courses p.doc st.base_url
          if cs.isEmpty then
            ⟨{ v.st with courses := cs }, true,
              some "No courses found. You may not be enrolled in any courses.", some [],
              v.calls + 1⟩
          else
            ⟨{ v.st with courses := cs }, true, none, some cs, v.calls + 1⟩

/-! ### Claims -/

/-- **C5.** The session-validity check mutates state only on failure:
with `loggedIn` false it returns false at once, with no network call;
whenever it returns true the session state is unchanged; whenever it
returns false `loggedIn` ends up false (in particular after any probe
outcome: login redirect, unexpected status, failed content check or
transport error); and it never sets `loggedIn` to true. -/
theorem C5_session_validity_frame (st : SessionState) (r : Option Probe) :
    (st.logged_in = false → is_session_valid st r = ⟨st, false, 0⟩) ∧
    ((is_session_valid st r).valid = true → (is_session_valid st r).st = st) ∧
    ((is_session_valid st r).valid = false →
      (is_session_valid st r).st.logged_in = false) ∧
    ((is_session_valid st r).st.logged_in = true → st.logged_in = true) := by
  cases hlg : st.logged_in with
  | false => simp [is_session_valid, hlg]
  | true =>
      cases r with
      | none => simp [is_session_valid, hlg]
      | some p =>
          by_cases h1 : (p.status = 302 && containsSub "login" p.location) = true
          · simp [is_session_valid, hlg, h1]
          · by_cases h2 : (p.status = 200 && verify_login_success p.raw) = true <;>
              simp [is_session_valid, hlg, h1, h2]

/-- **C5 witness.** A freshly reset (never logged in) session: the check
returns false with zero network requests and an unchanged state. -/
theorem C5_session_validity_frame_witness :
    is_session_valid ⟨"https://eclass.uoa.gr", false, none, [], 0⟩ none =
      ⟨⟨"https://eclass.uoa.gr", false, none, [], 0⟩, false, 0⟩ :=
  (C5_session_validity_frame ⟨"https://eclass.uoa.gr", false, none, [], 0⟩ none).1 rfl

/-- **C6.** `perform_logout` on a logged-out session succeeds with no
username and no network call; when logged in, a successful logout
returns the captured username and resets the session (fresh cookie
context, `loggedIn` false, username and courses cleared); on transport
failure it reports the error and leaves the whole state untouched. -/
theorem C6_logout (st : SessionState) (r : Except String Unit) :
    (st.logged_in = false → perform_logout st r = ⟨st, true, none, 0⟩) ∧
    (st.logged_in = true → r = Except.ok () →
      perform_logout st r = ⟨st.reset, true, st.username, 1⟩ ∧
      (perform_logout st r).st.logged_in = false ∧
      (perform_logout st r).st.username = none ∧
      (perform_logout st r).st.courses = [] ∧
      (perform_logout st r).st.cookieEpoch ≠ st.cookieEpoch) ∧
    (∀ e, st.logged_in = true → r = Except.error e →
      perform_logout st r = ⟨st, false, some ("Error during logout: " ++ e), 1⟩) := by
  refine ⟨fun h => by simp [perform_logout, h], fun h hr => ?_, fun e h hr => ?_⟩
  · subst hr
    refine ⟨by simp [perform_logout, h], ?_, ?_, ?_, ?_⟩ <;>
      simp [perform_logout, h, SessionState.reset]
  · subst hr
    simp [perform_logout, h]

/-- **C6 witness.** Both logout branches at concrete sessions: the
logged-out no-op and a successful logout of user `alice`. -/
theorem C6_logout_witness :
    perform_logout ⟨"https://eclass.uoa.gr", false, none, [], 0⟩ (Except.ok ()) =
      ⟨⟨"https://eclass.uoa.gr", false, none, [], 0⟩, true, none, 0⟩ ∧
    perform_logout ⟨"https://eclass.uoa.gr", true, some "alice", [], 0⟩ (Except.ok ()) =
      ⟨⟨"https://eclass.uoa.gr", false, none, [], 1⟩, true, some "alice", 1⟩ :=
  ⟨(C6_logout ⟨"https://eclass.uoa.gr", false, none, [], 0⟩ (Except.ok ())).1 rfl,
    ((C6_logout ⟨"https://eclass.uoa.gr", true, some "alice", [], 0⟩
      (Except.ok ())).2.1 rfl rfl).1⟩

/-- **C7 counterexample.** The claim says a session-expired failure is
returned "without any network call", but when `loggedIn` is true the
validity check inside `get_courses` performs its probe GET before the
session-expired failure is returned: on a logged-in session whose probe
is answered with a 302 redirect to the login page, `get_courses`
returns the session-expired failure after one network request. -/
theorem C7_get_courses_counterexample :
    (get_courses ⟨"https://eclass.uoa.gr", true, some "alice", [], 0⟩
        ⟨some ⟨302, "https://eclass.uoa.gr/main/login_form.php", ""⟩,
          Except.error "unused"⟩).success = false ∧
    (get_courses ⟨"https://eclass.uoa.gr", true, some "alice", [], 0⟩
        ⟨some ⟨302, "https://eclass.uoa.gr/main/login_form.php", ""⟩,
          Except.error "unused"⟩).message =
      some "Session expired. Please log in again." ∧
    (get_courses ⟨"https://eclass.uoa.gr", true, some "alice", [], 0⟩
        ⟨some ⟨302, "https://eclass.uoa.gr/main/login_form.php", ""⟩,
          Except.error "unused"⟩).calls = 1 := by
  refine ⟨?_, ?_, ?_⟩ <;> decide

/-- **C7 (amended).** `get_courses` requires `loggedIn` true and a
passing session-validity check.  With `loggedIn` false it returns the
typed not-authenticated failure with no network call; when the validity
check fails it returns the typed session-expired failure after only the
validity probe's request (never fetching the course listing).  On
success it overwrites `Session State.courses` with the extracted
sequence and returns it, and an empty sequence is a valid success
outcome (success true) distinct from the not-logged-in failure
(success false). -/
theorem C7_get_courses (st : SessionState) (o : CoursesOracle) :
    (st.logged_in = false →
      get_courses st o =
        ⟨st, false, some "Not logged in. Please log in first using the login tool.",
          none, 0⟩) ∧
    (st.logged_in = true → (is_session_valid st o.probe).valid = false →
      (get_courses st o).success = false ∧
      (get_courses st o).message = some "Session expired. Please log in again." ∧
      (get_courses st o).courses = none ∧
      (get_courses st o).calls = (is_session_valid st o.probe).calls) ∧
    (∀ p, (is_session_valid st o.probe).valid = true → o.page = Except.ok p →
      (get_courses st o).st =
        { st with courses := extract_courses p.doc st.base_url } ∧
      (get_courses st o).success = true ∧
      (get_courses st o).courses = some (extract_courses p.doc st.base_url)) := by
  refine ⟨fun h => by simp [get_courses, h], fun h hv => ?_, fun p hv hp => ?_⟩
  · simp [get_courses, h, hv]
  · have hlg : st.logged_in = true := by
      by_contra hc
      have hf : st.logged_in = false := by revert hc; cases st.logged_in <;> simp
      simp [is_session_valid, hf] at hv
    have hst : (is_session_valid st o.probe).st = st :=
      (C5_session_validity_frame st o.probe).2.1 hv
    cases hcs : (extract_courses p.doc st.base_url).isEmpty with
    | false =>
        refine ⟨?_, ?_, ?_⟩ <;> simp [get_courses, hlg, hv, hp, hcs, hst]
    | true =>
        have hnil : extract_courses p.doc st.base_url = [] := by
          revert hcs; cases extract_courses p.doc st.base_url <;> simp
        refine ⟨?_, ?_, ?_⟩ <;> simp [get_courses, hlg, hv, hp, hcs, hst, hnil]

/-- **C7 witness.** A successful read on a valid session: the portfolio
page holds one course link; the state's course cache is overwritten and
the course returned. -/
theorem C7_get_courses_witness :
    (get_courses ⟨"https://eclass.uoa.gr", true, some "alice", [], 0⟩
        ⟨some ⟨200, "", "portfolio"⟩,
          Except.ok ⟨"https://eclass.uoa.gr/main/portfolio.php", "",
            hl [Html.elem "a" [("href", "/courses/101")] (hl [Html.text "Intro"])]⟩⟩).courses =
      some [{ name := "Intro", url := "https://eclass.uoa.gr/courses/101" }] :=
  (C7_get_courses ⟨"https://eclass.uoa.gr", true, some "alice", [], 0⟩
      ⟨some ⟨200, "", "portfolio"⟩,
        Except.ok ⟨"https://eclass.uoa.gr/main/portfolio.php", "",
          hl [Html.elem "a" [("href", "/courses/101")] (hl [Html.text "Intro"])]⟩⟩).2.2
    ⟨"https://eclass.uoa.gr/main/portfolio.php", "",
      hl [Html.elem "a" [("href", "/courses/101")] (hl [Html.text "Intro"])]⟩
    (by decide) rfl |>.2.2

/-- Every URL built by `normUrl` either keeps an `http`-prefixed href or
is `base ++ "/" ++` the stripped href. -/
lemma normUrl_shape (base x : String) :
    strStartsWith (normUrl base x) "http" = true ∨
      ∃ h, normUrl base x = base ++ "/" ++ h := by
  by_cases hx : strStartsWith x "http" = true
  · left; simp [normUrl, hx]
  · right; exact ⟨stripSlashes x, by simp [normUrl, hx]⟩

/-- A course emitted by the anchor fallback has a non-empty name and a
`normUrl`-shaped URL. -/
lemma fallbackCourse_shape (base : String) (a : Html) (c : Course)
    (hc : fallbackCourse base a = some c) :
    c.name ≠ "" ∧
      (strStartsWith c.url "http" = true ∨ ∃ h, c.url = base ++ "/" ++ h) := by
  simp only [fallbackCourse] at hc
  by_cases h1 : (containsSub "courses" (orStr (getAttr a "href") "") ||
      containsSub "course.php" (orStr (getAttr a "href") "")) = true
  · simp only [h1, if_true] at hc
    by_cases h2 : strTrim (textH a) = ""
    · simp [h2] at hc
    · simp only [h2, if_false, if_neg h2] at hc
      injection hc with hc
      subst hc
      exact ⟨h2, normUrl_shape base _⟩
  · simp [h1] at hc

/-- A course emitted by the selector branch has a `normUrl`-shaped
URL. -/
lemma selCourse_shape (base : String) (e : Html) (c : Course)
    (hc : selCourse base e = some c) :
    strStartsWith c.url "http" = true ∨ ∃ h, c.url = base ++ "/" ++ h := by
  simp only [selCourse] at hc
  rcases hh : getAttr (match (findAllTagL "a" (childrenOf e)).head? with
      | some a => a
      | none => e) "href" with _ | h
  · simp [hh] at hc
  · simp only [hh] at hc
    by_cases he : h = ""
    · simp [he] at hc
    · simp only [he, if_false, if_neg he] at hc
      injection hc with hc
      subst hc
      exact normUrl_shape base h

/-- Membership form of `fallbackCourse_shape`. -/
lemma fallbackCourses_mem_shape (base : String) (l : List Html) (c : Course)
    (hc : c ∈ fallbackCourses base l) :
    c.name ≠ "" ∧
      (strStartsWith c.url "http" = true ∨ ∃ h, c.url = base ++ "/" ++ h) := by
  obtain ⟨a, -, ha⟩ := List.mem_filterMap.mp hc
  exact fallbackCourse_shape base a c ha

/-- Membership form of `selCourse_shape`. -/
lemma selCourses_mem_shape (base : String) (l : List Html) (c : Course)
    (hc : c ∈ selCourses base l) :
    strStartsWith c.url "http" = true ∨ ∃ h, c.url = base ++ "/" ++ h := by
  obtain ⟨a, -, ha⟩ := List.mem_filterMap.mp hc
  exact selCourse_shape base a c ha

/-- `extract_courses` returns either the selector branch on some group
or the anchor fallback. -/
lemma extract_courses_split (doc : HtmlList) (base : String) :
    (∃ g, extract_courses doc base = selCourses base g) ∨
      extract_courses doc base = fallbackCourses base (findAllTagL "a" doc) := by
  rcases hg1 : courseGroup1 doc with _ | ⟨x1, xs1⟩
  · rcases hg2 : courseGroup2 doc with _ | ⟨x2, xs2⟩
    · rcases hg3 : courseGroup3 doc with _ | ⟨x3, xs3⟩
      · rcases hg4 : courseGroup4 doc with _ | ⟨x4, xs4⟩
        · exact Or.inr (by simp [extract_courses, hg1, hg2, hg3, hg4])
        · exact Or.inl ⟨x4 :: xs4, by simp [extract_courses, hg1, hg2, hg3, hg4]⟩
      · exact Or.inl ⟨x3 :: xs3, by simp [extract_courses, hg1, hg2, hg3]⟩
    · exact Or.inl ⟨x2 :: xs2, by simp [extract_courses, hg1, hg2]⟩
  · exact Or.inl ⟨x1 :: xs1, by simp [extract_courses, hg1]⟩

/-- **C3.** `extract_courses` consults the four selector groups in
strict precedence order, its result depending only on the first
non-empty group; only when all four are empty does it fall back to the
anchor scan, which names each course by the anchor's own (stripped)
text and skips anchors with empty text.  In particular, a document with
no matching selectors containing only `<a href="/courses/101">Intro</a>`
yields exactly one course named `Intro` at `<baseURL>/courses/101`. -/
theorem C3_extract_courses_precedence (doc : HtmlList) (base : String) :
    (courseGroup1 doc ≠ [] →
      extract_courses doc base = selCourses base (courseGroup1 doc)) ∧
    (courseGroup1 doc = [] → courseGroup2 doc ≠ [] →
      extract_courses doc base = selCourses base (courseGroup2 doc)) ∧
    (courseGroup1 doc = [] → courseGroup2 doc = [] → courseGroup3 doc ≠ [] →
      extract_courses doc base = selCourses base (courseGroup3 doc)) ∧
    (courseGroup1 doc = [] → courseGroup2 doc = [] → courseGroup3 doc = [] →
      courseGroup4 doc ≠ [] →
      extract_courses doc base = selCourses base (courseGroup4 doc)) ∧
    (courseGroup1 doc = [] → courseGroup2 doc = [] → courseGroup3 doc = [] →
      courseGroup4 doc = [] →
      extract_courses doc base = fallbackCourses base (findAllTagL "a" doc)) ∧
    extract_courses
        (hl [Html.elem "a" [("href", "/courses/101")] (hl [Html.text "Intro"])]) base =
      [{ name := "Intro", url := base ++ "/courses/101" }] := by
  refine ⟨?_, ?_, ?_, ?_, ?_, ?_⟩
  · intro h1
    rcases hg : courseGroup1 doc with _ | ⟨x, xs⟩
    · exact absurd hg h1
    · simp [extract_courses, hg]
  · intro h1 h2
    rcases hg : courseGroup2 doc with _ | ⟨x, xs⟩
    · exact absurd hg h2
    · simp [extract_courses, h1, hg]
  · intro h1 h2 h3
    rcases hg : courseGroup3 doc with _ | ⟨x, xs⟩
    · exact absurd hg h3
    · simp [extract_courses, h1, h2, hg]
  · intro h1 h2 h3 h4
    rcases hg : courseGroup4 doc with _ | ⟨x, xs⟩
    · exact absurd hg h4
    · simp [extract_courses, h1, h2, h3, hg]
  · intro h1 h2 h3 h4
    simp [extract_courses, h1, h2, h3, h4]
  · have h1 : courseGroup1
        (hl [Html.elem "a" [("href", "/courses/101")] (hl [Html.text "Intro"])]) = [] := by
      decide
    have h2 : courseGroup2
        (hl [Html.elem "a" [("href", "/courses/101")] (hl [Html.text "Intro"])]) = [] := by
      decide
    have h3 : courseGroup3
        (hl [Html.elem "a" [("href", "/courses/101")] (hl [Html.text "Intro"])]) = [] := by
      decide
    have h4 : courseGroup4
        (hl [Html.elem "a" [("href", "/courses/101")] (hl [Html.text "Intro"])]) = [] := by
      decide
    have hA : findAllTagL "a"
        (hl [Html.elem "a" [("href", "/courses/101")] (hl [Html.text "Intro"])]) =
        [Html.elem "a" [("href", "/courses/101")] (hl [Html.text "Intro"])] := by
      decide
    have hfc : fallbackCourse base
        (Html.elem "a" [("href", "/courses/101")] (hl [Html.text "Intro"])) =
        some { name := "Intro", url := base ++ "/courses/101" } := by
      have hhref : orStr
          (getAttr (Html.elem "a" [("href", "/courses/101")] (hl [Html.text "Intro"])) "href")
          "" = "/courses/101" := by decide
      have hcond : containsSub "courses" "/courses/101" = true := by decide
      have hnm : strTrim
          (textH (Html.elem "a" [("href", "/courses/101")] (hl [Html.text "Intro"]))) =
          "Intro" := by decide
      have hne : ¬("Intro" : String) = "" := by decide
      have hsw : strStartsWith "/courses/101" "http" = false := by decide
      have hss : stripSlashes "/courses/101" = "courses/101" := by decide
      have hsl : ("/" : String) ++ "courses/101" = "/courses/101" := by decide
      simp only [fallbackCourse, hhref, hcond, Bool.true_or, if_true, hnm,
        if_neg hne, normUrl, hsw, Bool.false_eq_true, if_false, hss,
        String.append_assoc, hsl]
    simp [extract_courses, h1, h2, h3, h4, hA, fallbackCourses, hfc]

/-- **C3 witness.** A document whose first selector group matches: the
result is the selector branch applied to just that group. -/
theorem C3_extract_courses_precedence_witness :
    extract_courses
        (hl [Html.elem "div" [("class", "course-title")]
          (hl [Html.elem "a" [("href", "/courses/9")] (hl [Html.text "X"])])])
        "https://eclass.uoa.gr" =
      selCourses "https://eclass.uoa.gr"
        (courseGroup1
          (hl [Html.elem "div" [("class", "course-title")]
            (hl [Html.elem "a" [("href", "/courses/9")] (hl [Html.text "X"])])])) :=
  (C3_extract_courses_precedence
      (hl [Html.elem "div" [("class", "course-title")]
        (hl [Html.elem "a" [("href", "/courses/9")] (hl [Html.text "X"])])])
      "https://eclass.uoa.gr").1 (by decide)

/-- **C8 counterexample.** The selector branch does not check names for
emptiness: a `.course-title` element whose anchor has a href but no
text yields a course whose `name` is the empty string, so not every
extracted Course has a non-empty name. -/
theorem C8_counterexample :
    extract_courses
        (hl [Html.elem "div" [("class", "course-title")]
          (hl [Html.elem "a" [("href", "/x")] (hl [])])]) "https://eclass.uoa.gr" =
      [{ name := "", url := "https://eclass.uoa.gr/x" }] ∧
    (extract_courses
        (hl [Html.elem "div" [("class", "course-title")]
          (hl [Html.elem "a" [("href", "/x")] (hl [])])]) "https://eclass.uoa.gr").map
      Course.name = [""] := by
  refine ⟨?_, ?_⟩ <;> decide

/-- **C8 (amended).** Every Course returned by `extract_courses` has a
URL that is either the source href kept verbatim (when it starts with
`http`) or `baseURL ++ "/" ++` the href with leading slashes stripped —
absolute whenever `baseURL` is absolute.  Courses from the anchor
fallback always have a non-empty name; the selector branch may emit an
empty name (see the counterexample). -/
theorem C8_course_invariant (doc : HtmlList) (base : String) :
    (∀ c ∈ extract_courses doc base,
      strStartsWith c.url "http" = true ∨ ∃ h, c.url = base ++ "/" ++ h) ∧
    (courseGroup1 doc = [] → courseGroup2 doc = [] → courseGroup3 doc = [] →
      courseGroup4 doc = [] → ∀ c ∈ extract_courses doc base, c.name ≠ "") := by
  constructor
  · intro c hc
    rcases extract_courses_split doc base with ⟨g, hg⟩ | hg
    · exact selCourses_mem_shape base g c (hg ▸ hc)
    · exact (fallbackCourses_mem_shape base (findAllTagL "a" doc) c (hg ▸ hc)).2
  · intro h1 h2 h3 h4 c hc
    rw [show extract_courses doc base = fallbackCourses base (findAllTagL "a" doc) from
      by simp [extract_courses, h1, h2, h3, h4]] at hc
    exact (fallbackCourses_mem_shape base (findAllTagL "a" doc) c hc).1

/-- **C8 witness.** The URL invariant evaluated on a concrete fallback
extraction. -/
theorem C8_course_invariant_witness :
    strStartsWith
        ({ name := "Intro", url := "https://eclass.uoa.gr" ++ "/" ++ "courses/101" } :
          Course).url "http" = true ∨
      ∃ h, ({ name := "Intro", url := "https://eclass.uoa.gr" ++ "/" ++ "courses/101" } :
        Course).url = "https://eclass.uoa.gr" ++ "/" ++ h :=
  (C8_course_invariant
      (hl [Html.elem "a" [("href", "/courses/101")] (hl [Html.text "Intro"])])
      "https://eclass.uoa.gr").1
    { name := "Intro", url := "https://eclass.uoa.gr" ++ "/" ++ "courses/101" }
    (by decide)

/-- **C9.** `extract_cas_form_data` locates the form by the fixed id
`fm1`, falling back to the first form when that id is absent; a
relative (non-`http`) action is resolved against the fixed CAS host
`https://sso.uoa.gr` (leading slash concatenated directly, otherwise
with a separating slash), and a wholly absent action is replaced by
`currentURL`.  In particular, a document with
`<input name="execution" value="abc123">` and
`<form id="fm1" action="/cas/login">` yields
`("abc123", "https://sso.uoa.gr/cas/login", None)`. -/
theorem C9_cas_form_data (doc : HtmlList) (cu : String) :
    (findTagAttr "form" "id" "fm1" doc = none →
      casForm doc = findFirstTag "form" doc) ∧
    (∀ inp f, findTagAttr "input" "name" "execution" doc = some inp →
      casForm doc = some f →
      (extract_cas_form_data doc cu).2.1 =
        some (resolveCasAction (getAttr f "action") cu)) ∧
    (∀ a, a ≠ "" → strStartsWith a "http://" = false →
      strStartsWith a "https://" = false →
      (strStartsWith a "/" = true →
        resolveCasAction (some a) cu = "https://sso.uoa.gr" ++ a) ∧
      (strStartsWith a "/" = false →
        resolveCasAction (some a) cu = "https://sso.uoa.gr/" ++ a)) ∧
    resolveCasAction none cu = cu ∧
    extract_cas_form_data
        (hl [Html.elem "input" [("name", "execution"), ("value", "abc123")] (hl []),
          Html.elem "form" [("id", "fm1"), ("action", "/cas/login")] (hl [])]) cu =
      (some "abc123", some "https://sso.uoa.gr/cas/login", none) := by
  refine ⟨fun h => by simp [casForm, h], fun inp f hinp hf => ?_, fun a ha h1 h2 => ?_,
    rfl, ?_⟩
  · simp [extract_cas_form_data, hinp, hf]
  · exact ⟨fun h3 => by simp [resolveCasAction, ha, h1, h2, h3],
      fun h3 => by simp [resolveCasAction, ha, h1, h2, h3]⟩
  · have hinp : findTagAttr "input" "name" "execution"
        (hl [Html.elem "input" [("name", "execution"), ("value", "abc123")] (hl []),
          Html.elem "form" [("id", "fm1"), ("action", "/cas/login")] (hl [])]) =
        some (Html.elem "input" [("name", "execution"), ("value", "abc123")] (hl [])) := by
      decide
    have hf : casForm
        (hl [Html.elem "input" [("name", "execution"), ("value", "abc123")] (hl []),
          Html.elem "form" [("id", "fm1"), ("action", "/cas/login")] (hl [])]) =
        some (Html.elem "form" [("id", "fm1"), ("action", "/cas/login")] (hl [])) := by
      decide
    have hmsg : msgText
        (hl [Html.elem "input" [("name", "execution"), ("value", "abc123")] (hl []),
          Html.elem "form" [("id", "fm1"), ("action", "/cas/login")] (hl [])]) = none := by
      decide
    have hval : getAttr
        (Html.elem "input" [("name", "execution"), ("value", "abc123")] (hl [])) "value" =
        some "abc123" := by decide
    have hact : resolveCasAction
        (getAttr (Html.elem "form" [("id", "fm1"), ("action", "/cas/login")] (hl []))
          "action") cu = "https://sso.uoa.gr/cas/login" := by
      have h1 : getAttr (Html.elem "form" [("id", "fm1"), ("action", "/cas/login")] (hl []))
          "action" = some "/cas/login" := by decide
      have h2 : ¬("/cas/login" : String) = "" := by decide
      have h3 : strStartsWith "/cas/login" "http://" = false := by decide
      have h4 : strStartsWith "/cas/login" "https://" = false := by decide
      have h5 : strStartsWith "/cas/login" "/" = true := by decide
      have h6 : ("https://sso.uoa.gr" : String) ++ "/cas/login" =
          "https://sso.uoa.gr/cas/login" := by decide
      simp [h1, resolveCasAction, h2, h3, h4, h5, h6]
    simp [extract_cas_form_data, hinp, hf, hmsg, hval, hact]

/-- **C9 witness.** The action-resolution conjunct applied at the
scenario document. -/
theorem C9_cas_form_data_witness :
    (extract_cas_form_data
        (hl [Html.elem "input" [("name", "execution"), ("value", "abc123")] (hl []),
          Html.elem "form" [("id", "fm1"), ("action", "/cas/login")] (hl [])])
        "https://sso.uoa.gr/login").2.1 =
      some (resolveCasAction
        (getAttr (Html.elem "form" [("id", "fm1"), ("action", "/cas/login")] (hl []))
          "action") "https://sso.uoa.gr/login") :=
  (C9_cas_form_data
      (hl [Html.elem "input" [("name", "execution"), ("value", "abc123")] (hl []),
        Html.elem "form" [("id", "fm1"), ("action", "/cas/login")] (hl [])])
      "https://sso.uoa.gr/login").2.1
    (Html.elem "input" [("name", "execution"), ("value", "abc123")] (hl []))
    (Html.elem "form" [("id", "fm1"), ("action", "/cas/login")] (hl []))
    (by decide) (by decide)

/-- **C10 counterexample.** A document whose error container strips to
the empty string and which has no `execution` input: the claim says the
error-text component "is the error-container's text when such a
container exists", but the code's `error_text or <generic>` substitutes
the generic message for the container's empty text, so the component is
not the container's text. -/
theorem C10_counterexample :
    msgText (hl [Html.elem "div" [("id", "msg")] (hl [Html.text "   "]),
        Html.elem "form" [("action", "/x")] (hl [])]) = some "" ∧
    extract_cas_form_data
        (hl [Html.elem "div" [("id", "msg")] (hl [Html.text "   "]),
          Html.elem "form" [("action", "/x")] (hl [])]) "https://sso.uoa.gr/login" =
      (none, none, some "Could not find execution parameter on SSO page") ∧
    ("" : String) ≠ "Could not find execution parameter on SSO page" := by
  refine ⟨?_, ?_, ?_⟩ <;> decide

/-- **C10 (amended).** When no `execution` input exists,
`extract_cas_form_data` returns NotFound for both the token and the
form action — the form lookup is skipped even when a form with an
action is present — and the error-text component is never `None` and
never empty: it is the error-container's stripped text when a container
with non-empty stripped text exists, otherwise the fixed generic
message (also when the container's text strips to empty); the same
substitution happens when the token is found but no form exists. -/
theorem C10_cas_error_text (doc : HtmlList) (cu : String) :
    (findTagAttr "input" "name" "execution" doc = none →
      extract_cas_form_data doc cu =
        (none, none,
          some (orStr (msgText doc) "Could not find execution parameter on SSO page"))) ∧
    (∀ inp, findTagAttr "input" "name" "execution" doc = some inp →
      casForm doc = none →
      extract_cas_form_data doc cu =
        (getAttr inp "value", none,
          some (orStr (msgText doc) "Could not find login form on SSO page"))) ∧
    (∀ s, s ≠ "" → orStr (some s) "Could not find execution parameter on SSO page" = s ∧
      orStr (some s) "Could not find login form on SSO page" = s) ∧
    (∀ o, orStr o "Could not find execution parameter on SSO page" ≠ "" ∧
      orStr o "Could not find login form on SSO page" ≠ "") := by
  refine ⟨fun h => by simp [extract_cas_form_data, h],
    fun inp hinp hf => by simp [extract_cas_form_data, hinp, hf],
    fun s hs => by simp [orStr, hs], fun o => ?_⟩
  rcases o with _ | s
  · constructor <;> decide
  · by_cases hs : s = ""
    · subst hs; constructor <;> simp [orStr]
    · constructor <;> simp [orStr, hs]

/-- **C10 witness.** The no-token case applied at a document with
neither an `execution` input nor an error container. -/
theorem C10_cas_error_text_witness :
    extract_cas_form_data (hl [Html.elem "form" [("action", "/x")] (hl [])])
        "https://sso.uoa.gr/login" =
      (none, none,
        some (orStr (msgText (hl [Html.elem "form" [("action", "/x")] (hl [])]))
          "Could not find execution parameter on SSO page")) :=
  (C10_cas_error_text (hl [Html.elem "form" [("action", "/x")] (hl [])])
      "https://sso.uoa.gr/login").1 (by decide)

/-- **C4.** `extract_sso_link` searches anchors first (by marker text or
the `ΕΚΠΑ` substring) and falls back to the first form whose action
contains `cas.php` only when the anchor search yields nothing; when the
first matching anchor carries a usable href, that href wins over any
form.  A relative result with a leading slash resolves to
`baseURL ++ link`, any other relative result to `baseURL ++ "/" ++ link`,
and the result is NotFound when neither search succeeds.  In
particular, an anchor with text `Είσοδος με λογαριασμό ΕΚΠΑ` and href
`/main/cas.php` yields `<baseURL>/main/cas.php`. -/
theorem C4_extract_sso_link (doc : HtmlList) (base : String) :
    (∀ a h, (findAllTagL "a" doc).find? anchorMatches = some a →
      getAttr a "href" = some h → h ≠ "" →
      extract_sso_link doc base = some (resolveRel base h)) ∧
    ((findAllTagL "a" doc).find? anchorMatches = none →
      extract_sso_link doc base = (ssoFromForms doc).map (resolveRel base)) ∧
    (∀ l, strStartsWith l "http://" = false → strStartsWith l "https://" = false →
      (strStartsWith l "/" = true → resolveRel base l = base ++ l) ∧
      (strStartsWith l "/" = false → resolveRel base l = base ++ "/" ++ l)) ∧
    (ssoFromAnchors doc = none → ssoFromForms doc = none →
      extract_sso_link doc base = none) ∧
    extract_sso_link
        (hl [Html.elem "a" [("href", "/main/cas.php")]
          (hl [Html.text "Είσοδος με λογαριασμό ΕΚΠΑ"])]) base =
      some (base ++ "/main/cas.php") := by
  refine ⟨fun a h ha hh hne => ?_, fun h => ?_, fun l h1 h2 => ?_, fun h1 h2 => ?_, ?_⟩
  · have hA : ssoFromAnchors doc = some h := by simp [ssoFromAnchors, ha, hh, hne]
    simp [extract_sso_link, hA]
  · have hA : ssoFromAnchors doc = none := by simp [ssoFromAnchors, h]
    rcases hf : ssoFromForms doc with _ | act <;> simp [extract_sso_link, hA, hf]
  · exact ⟨fun h3 => by simp [resolveRel, h1, h2, h3],
      fun h3 => by simp [resolveRel, h1, h2, h3]⟩
  · simp [extract_sso_link, h1, h2]
  · have hA : ssoFromAnchors
        (hl [Html.elem "a" [("href", "/main/cas.php")]
          (hl [Html.text "Είσοδος με λογαριασμό ΕΚΠΑ"])]) = some "/main/cas.php" := by
      decide
    have h1 : strStartsWith "/main/cas.php" "http://" = false := by decide
    have h2 : strStartsWith "/main/cas.php" "https://" = false := by decide
    have h3 : strStartsWith "/main/cas.php" "/" = true := by decide
    simp [extract_sso_link, hA, resolveRel, h1, h2, h3]

/-- **C4 witness.** The anchor-precedence conjunct applied at a document
holding both an anchor candidate and a `cas.php` form candidate: the
anchor's href is the one returned. -/
theorem C4_extract_sso_link_witness :
    extract_sso_link
        (hl [Html.elem "a" [("href", "/main/cas.php")]
            (hl [Html.text "Είσοδος με λογαριασμό ΕΚΠΑ"]),
          Html.elem "form" [("action", "/modules/auth/cas.php")] (hl [])])
        "https://eclass.uoa.gr" =
      some (resolveRel "https://eclass.uoa.gr" "/main/cas.php") :=
  (C4_extract_sso_link
      (hl [Html.elem "a" [("href", "/main/cas.php")]
          (hl [Html.text "Είσοδος με λογαριασμό ΕΚΠΑ"]),
        Html.elem "form" [("action", "/modules/auth/cas.php")] (hl [])])
      "https://eclass.uoa.gr").1
    (Html.elem "a" [("href", "/main/cas.php")]
      (hl [Html.text "Είσοδος με λογαριασμό ΕΚΠΑ"]))
    "/main/cas.php" (by decide) (by decide) (by decide)

/-- Case split on the tail of `attempt_login`: either the state is
untouched and the run failed, or the run succeeded — which requires the
post-submit check, the portal-host check and the final portfolio
verification to have passed. -/
lemma afterPost_cases (st : SessionState) (u : String) (r3 : Resp)
    (r4o : Except String Resp) :
    ((afterPost st u r3 r4o).st = st ∧ (afterPost st u r3 r4o).success = false) ∨
    ((afterPost st u r3 r4o).success = true ∧ postSubmitCheck r3.raw = true ∧
      containsSub "eclass.uoa.gr" r3.url = true ∧
      ∃ r4, r4o = Except.ok r4 ∧ verify_login_success r4.raw = true ∧
        (afterPost st u r3 r4o).st =
          { st with logged_in := true, username := some u }) := by
  cases hps : postSubmitCheck r3.raw with
  | false =>
      left
      rcases hext : (extract_cas_form_data r3.doc r3.url).2.2 with _ | t
      · simp [afterPost, hps, hext]
      · by_cases ht : t = "" <;> simp [afterPost, hps, hext, ht]
  | true =>
      cases hurl : containsSub "eclass.uoa.gr" r3.url with
      | false => left; simp [afterPost, hps, hurl]
      | true =>
          cases r4o with
          | error e => left; simp [afterPost, hps, hurl]
          | ok r4 =>
              cases hv : verify_login_success r4.raw with
              | false => left; simp [afterPost, hps, hurl, hv]
              | true =>
                  right
                  exact ⟨by simp [afterPost, hps, hurl, hv], rfl, rfl, r4, rfl, hv,
                    by simp [afterPost, hps, hurl, hv]⟩

/-- Case split on a whole `attempt_login` run: every failure leaves the
state untouched; success entails that the POST response passed the
post-submit check and the portal-host check, and that the portfolio
verification succeeded, the state then carrying `loggedIn = true` and
the username. -/
lemma attempt_login_cases (st : SessionState) (u p : String) (o : LoginOracle) :
    ((attempt_login st u p o).st = st ∧ (attempt_login st u p o).success = false) ∨
    ((attempt_login st u p o).success = true ∧
      ∃ r3, o.r3 = Except.ok r3 ∧ postSubmitCheck r3.raw = true ∧
        containsSub "eclass.uoa.gr" r3.url = true ∧
        ∃ r4, o.r4 = Except.ok r4 ∧ verify_login_success r4.raw = true ∧
          (attempt_login st u p o).st =
            { st with logged_in := true, username := some u }) := by
  obtain ⟨r1, r2, r3, r4⟩ := o
  cases r1 with
  | error e => left; simp [attempt_login]
  | ok resp1 =>
      rcases hsso : extract_sso_link resp1.doc st.base_url with _ | l
      · left; simp [attempt_login, hsso]
      · cases r2 with
        | error e => left; simp [attempt_login, hsso]
        | ok resp2 =>
            cases hu : containsSub "sso.uoa.gr" resp2.url with
            | false => left; simp [attempt_login, hsso, hu]
            | true =>
                cases hea : errHasAuthWords
                    (extract_cas_form_data resp2.doc resp2.url).2.2 with
                | true => left; simp [attempt_login, hsso, hu, hea]
                | false =>
                    cases he1 : optFalsy (extract_cas_form_data resp2.doc resp2.url).1 with
                    | true => left; simp [attempt_login, hsso, hu, hea, he1]
                    | false =>
                        cases he2 : optFalsy
                            (extract_cas_form_data resp2.doc resp2.url).2.1 with
                        | true => left; simp [attempt_login, hsso, hu, hea, he1, he2]
                        | false =>
                            cases r3 with
                            | error e =>
                                left; simp [attempt_login, hsso, hu, hea, he1, he2]
                            | ok resp3 =>
                                have heq : attempt_login st u p
                                    ⟨Except.ok resp1, Except.ok resp2, Except.ok resp3,
                                      r4⟩ = afterPost st u resp3 r4 := by
                                  simp [attempt_login, hsso, hu, hea, he1, he2]
                                rcases afterPost_cases st u resp3 r4 with
                                  ⟨h1, h2⟩ | ⟨h1, h2, h3, r4x, hr4, hv, hst⟩
                                · left; rw [heq]; exact ⟨h1, h2⟩
                                · right
                                  rw [heq]
                                  exact ⟨h1, resp3, rfl, h2, h3, r4x, hr4, hv, hst⟩

/-- **C1.** Starting from an unauthenticated session, a login attempt
leaves `loggedIn` false and `username` unset on every failure outcome
(the state is returned untouched), and `loggedIn` can only be true in
the final state if the run succeeded — which requires the portfolio
verification (`verify_login_success` on the portfolio response) to have
passed; on success `loggedIn` is true and `username` is set. -/
theorem C1_login_sets_flag_only_after_verification (st : SessionState)
    (u p : String) (o : LoginOracle)
    (hlg : st.logged_in = false) (hun : st.username = none) :
    ((attempt_login st u p o).success = false →
      (attempt_login st u p o).st = st ∧
      (attempt_login st u p o).st.logged_in = false ∧
      (attempt_login st u p o).st.username = none) ∧
    ((attempt_login st u p o).st.logged_in = true →
      (attempt_login st u p o).success = true ∧
      ∃ r4, o.r4 = Except.ok r4 ∧ verify_login_success r4.raw = true) ∧
    ((attempt_login st u p o).success = true →
      (attempt_login st u p o).st.logged_in = true ∧
      (attempt_login st u p o).st.username = some u) := by
  rcases attempt_login_cases st u p o with ⟨h1, h2⟩ |
    ⟨h1, r3, hr3, hps, hurl, r4, hr4, hv, hst⟩
  · refine ⟨fun _ => ⟨h1, by rw [h1, hlg], by rw [h1, hun]⟩, fun hl2 => ?_, fun hs => ?_⟩
    · rw [h1, hlg] at hl2
      exact absurd hl2 (by simp)
    · rw [hs] at h2
      exact absurd h2 (by simp)
  · refine ⟨fun hs => ?_, fun _ => ⟨h1, r4, hr4, hv⟩, fun _ => ⟨by rw [hst], by rw [hst]⟩⟩
    rw [h1] at hs
    exact absurd hs (by simp)

/-- **C1 witness.** A complete successful login run on concrete pages:
the final state carries the flag and the username. -/
theorem C1_login_sets_flag_only_after_verification_witness :
    (attempt_login ⟨"https://eclass.uoa.gr", false, none, [], 0⟩ "alice" "pw"
        ⟨Except.ok ⟨"https://eclass.uoa.gr/main/login_form.php", "",
            hl [Html.elem "a" [("href", "/main/cas.php")]
              (hl [Html.text "Είσοδος με λογαριασμό ΕΚΠΑ"])]⟩,
          Except.ok ⟨"https://sso.uoa.gr/login", "",
            hl [Html.elem "input" [("name", "execution"), ("value", "abc123")] (hl []),
              Html.elem "form" [("id", "fm1"), ("action", "/cas/login")] (hl [])]⟩,
          Except.ok ⟨"https://eclass.uoa.gr/", "welcome", hl []⟩,
          Except.ok ⟨"https://eclass.uoa.gr/main/portfolio.php", "Μαθήματα",
            hl []⟩⟩).st.logged_in = true ∧
    (attempt_login ⟨"https://eclass.uoa.gr", false, none, [], 0⟩ "alice" "pw"
        ⟨Except.ok ⟨"https://eclass.uoa.gr/main/login_form.php", "",
            hl [Html.elem "a" [("href", "/main/cas.php")]
              (hl [Html.text "Είσοδος με λογαριασμό ΕΚΠΑ"])]⟩,
          Except.ok ⟨"https://sso.uoa.gr/login", "",
            hl [Html.elem "input" [("name", "execution"), ("value", "abc123")] (hl []),
              Html.elem "form" [("id", "fm1"), ("action", "/cas/login")] (hl [])]⟩,
          Except.ok ⟨"https://eclass.uoa.gr/", "welcome", hl []⟩,
          Except.ok ⟨"https://eclass.uoa.gr/main/portfolio.php", "Μαθήματα",
            hl []⟩⟩).st.username = some "alice" :=
  (C1_login_sets_flag_only_after_verification
      ⟨"https://eclass.uoa.gr", false, none, [], 0⟩ "alice" "pw"
      ⟨Except.ok ⟨"https://eclass.uoa.gr/main/login_form.php", "",
          hl [Html.elem "a" [("href", "/main/cas.php")]
            (hl [Html.text "Είσοδος με λογαριασμό ΕΚΠΑ"])]⟩,
        Except.ok ⟨"https://sso.uoa.gr/login", "",
          hl [Html.elem "input" [("name", "execution"), ("value", "abc123")] (hl []),
            Html.elem "form" [("id", "fm1"), ("action", "/cas/login")] (hl [])]⟩,
        Except.ok ⟨"https://eclass.uoa.gr/", "welcome", hl []⟩,
        Except.ok ⟨"https://eclass.uoa.gr/main/portfolio.php", "Μαθήματα", hl []⟩⟩
      rfl rfl).2.2 (by decide)

/-- **C2.** After the CAS credential POST, authentication success is
declared iff the response body contains neither fixed failure marker;
when the `credentials ... authentic` marker is present the run fails
with the state untouched and the message built from the re-extracted
error text (generic invalid-credentials message when that text is
absent or empty), and on any run whose POST response contains that
marker `attempt_login` returns failure with `loggedIn` still false. -/
theorem C2_post_submit_failure (st : SessionState) (u p : String) (o : LoginOracle) :
    (∀ raw, postSubmitCheck raw = true ↔
      (containsSub failureMarkerA raw = false ∧
        containsSub failureMarkerB raw = false)) ∧
    (∀ r3 r4o, containsSub failureMarkerB r3.raw = true →
      (afterPost st u r3 r4o).st = st ∧ (afterPost st u r3 r4o).success = false ∧
      (afterPost st u r3 r4o).message =
        some (match (extract_cas_form_data r3.doc r3.url).2.2 with
          | some t =>
              if t = "" then "Authentication failed: Invalid credentials"
              else "Authentication error: " ++ t
          | none => "Authentication failed: Invalid credentials")) ∧
    (∀ r3, st.logged_in = false → o.r3 = Except.ok r3 →
      containsSub failureMarkerB r3.raw = true →
      (attempt_login st u p o).success = false ∧
      (attempt_login st u p o).st.logged_in = false) := by
  refine ⟨fun raw => by simp [postSubmitCheck], fun r3 r4o hB => ?_, fun r3 hlg hr3 hB => ?_⟩
  · have hps : postSubmitCheck r3.raw = false := by simp [postSubmitCheck, hB]
    rcases hext : (extract_cas_form_data r3.doc r3.url).2.2 with _ | t
    · simp [afterPost, hps, hext]
    · by_cases ht : t = "" <;> simp [afterPost, hps, hext, ht]
  · rcases attempt_login_cases st u p o with ⟨h1, h2⟩ |
      ⟨h1, r3x, hr3x, hps, hurl, r4, hr4, hv, hst⟩
    · exact ⟨h2, by rw [h1, hlg]⟩
    · rw [hr3] at hr3x
      injection hr3x with hr3x
      rw [hr3x] at hB
      have hfalse : postSubmitCheck r3x.raw = false := by simp [postSubmitCheck, hB]
      rw [hfalse] at hps
      exact absurd hps (by simp)

/-- **C2 witness.** A POST response carrying the
`credentials ... authentic` marker on an unauthenticated session: the
run fails and `loggedIn` stays false. -/
theorem C2_post_submit_failure_witness :
    (attempt_login ⟨"https://eclass.uoa.gr", false, none, [], 0⟩ "alice" "pw"
        ⟨Except.ok ⟨"https://eclass.uoa.gr/main/login_form.php", "",
            hl [Html.elem "a" [("href", "/main/cas.php")]
              (hl [Html.text "Είσοδος με λογαριασμό ΕΚΠΑ"])]⟩,
          Except.ok ⟨"https://sso.uoa.gr/login", "",
            hl [Html.elem "input" [("name", "execution"), ("value", "abc123")] (hl []),
              Html.elem "form" [("id", "fm1"), ("action", "/cas/login")] (hl [])]⟩,
          Except.ok ⟨"https://sso.uoa.gr/login",
            "The credentials you provided cannot be determined to be authentic",
            hl []⟩,
          Except.error "unused"⟩).success = false ∧
    (attempt_login ⟨"https://eclass.uoa.gr", false, none, [], 0⟩ "alice" "pw"
        ⟨Except.ok ⟨"https://eclass.uoa.gr/main/login_form.php", "",
            hl [Html.elem "a" [("href", "/main/cas.php")]
              (hl [Html.text "Είσοδος με λογαριασμό ΕΚΠΑ"])]⟩,
          Except.ok ⟨"https://sso.uoa.gr/login", "",
            hl [Html.elem "input" [("name", "execution"), ("value", "abc123")] (hl []),
              Html.elem "form" [("id", "fm1"), ("action", "/cas/login")] (hl [])]⟩,
          Except.ok ⟨"https://sso.uoa.gr/login",
            "The credentials you provided cannot be determined to be authentic",
            hl []⟩,
          Except.error "unused"⟩).st.logged_in = false :=
  (C2_post_submit_failure ⟨"https://eclass.uoa.gr", false, none, [], 0⟩ "alice" "pw"
      ⟨Except.ok ⟨"https://eclass.uoa.gr/main/login_form.php", "",
          hl [Html.elem "a" [("href", "/main/cas.php")]
            (hl [Html.text "Είσοδος με λογαριασμό ΕΚΠΑ"])]⟩,
        Except.ok ⟨"https://sso.uoa.gr/login", "",
          hl [Html.elem "input" [("name", "execution"), ("value", "abc123")] (hl []),
            Html.elem "form" [("id", "fm1"), ("action", "/cas/login")] (hl [])]⟩,
        Except.ok ⟨"https://sso.uoa.gr/login",
          "The credentials you provided cannot be determined to be authentic",
          hl []⟩,
        Except.error "unused"⟩).2.2
    ⟨"https://sso.uoa.gr/login",
      "The credentials you provided cannot be determined to be authentic", hl []⟩
    rfl rfl (by decide)
